import Mathlib

/-!
Shallow embedding of `src/model.ts` (headview3d): the UV mapper, the
skin/ears/player assemblies and the procedural animation framework.

Modelling conventions:
* JavaScript numbers are modelled by `ℚ`; the trigonometric functions and
  the constant `Math.PI` used by the pose code are abstract parameters
  (`sin cos : ℚ → ℚ`, `pi : ℚ`), so every definition stays computable and
  the algebraic structure of the code is preserved exactly.
* Mutation is modelled by explicit state passing: each mutating method
  becomes a function from the old state to the new state.
* `Texture` objects are identified by an id; `null` is `Option.none`.
* Mode-change listeners (`() => void` closures) are identified by an id;
  invoking the listeners is modelled by the trace (list of ids, in call
  order) that the setter emits.
-/

/-- A texture object is modelled by an identifier; `null` maps to `none`. -/
abbrev Texture := Nat

/-- Three.js `Vector3`-valued fields (positions, Euler rotations). -/
structure Vec3 where
  x : ℚ
  y : ℚ
  z : ℚ
deriving DecidableEq, Repr

/-- The two material side modes used by the code (`FrontSide`, `DoubleSide`). -/
inductive Side where
  | front
  | double
deriving DecidableEq, Repr

/-- The observable state of a `MeshStandardMaterial` as used by `model.ts`. -/
structure MeshStandardMaterial where
  side : Side
  transparent : Bool
  alphaTest : ℚ
  polygonOffset : Bool
  polygonOffsetFactor : ℚ
  polygonOffsetUnits : ℚ
  map : Option Texture
  needsUpdate : Bool
deriving DecidableEq, Repr

/-- `layer1Material` as built in the `SkinObject` constructor. -/
def mkLayer1Material : MeshStandardMaterial :=
  { side := Side.front, transparent := false, alphaTest := 0,
    polygonOffset := false, polygonOffsetFactor := 0, polygonOffsetUnits := 0,
    map := none, needsUpdate := false }

/-- `layer2Material` as built in the `SkinObject` constructor
(`DoubleSide`, transparent, `alphaTest = 1e-5`). -/
def mkLayer2Material : MeshStandardMaterial :=
  { side := Side.double, transparent := true, alphaTest := 1 / 100000,
    polygonOffset := false, polygonOffsetFactor := 0, polygonOffsetUnits := 0,
    map := none, needsUpdate := false }

/-- The biased clone of a material: `polygonOffset = true`, factor and
units `1.0`, as in the `SkinObject` constructor. -/
def biased (m : MeshStandardMaterial) : MeshStandardMaterial :=
  { m with polygonOffset := true, polygonOffsetFactor := 1, polygonOffsetUnits := 1 }

/-- A `BodyPart` groups an inner and an outer layer under one joint
transform; the two layers' visibility flags are independently tracked. -/
structure BodyPart where
  position : Vec3
  rotation : Vec3
  innerVisible : Bool
  outerVisible : Bool
deriving DecidableEq, Repr

/-- The model type flag (`"default" | "slim"` in `skinview-utils`). -/
inductive ModelType where
  | default
  | slim
deriving DecidableEq, Repr

/-- The observable state of a `SkinObject`: its head `BodyPart`, the four
owned materials, the shared texture reference `_map`, the slim flag and
the registered mode-change listeners (by id, in registration order). -/
structure SkinObject where
  position : Vec3
  visible : Bool
  head : BodyPart
  modelListeners : List Nat
  slim : Bool
  _map : Option Texture
  layer1Material : MeshStandardMaterial
  layer1MaterialBiased : MeshStandardMaterial
  layer2Material : MeshStandardMaterial
  layer2MaterialBiased : MeshStandardMaterial
deriving DecidableEq, Repr

/-- Getter `get map()` of `SkinObject`: returns the `_map` field. -/
def SkinObject.getMap (s : SkinObject) : Option Texture :=
  s._map

/-- Setter `set map(newMap)` of `SkinObject`: stores `newMap` in `_map` and
propagates it to all four owned materials, marking each `needsUpdate`. -/
def SkinObject.setMap (s : SkinObject) (newMap : Option Texture) : SkinObject :=
  { s with
    _map := newMap,
    layer1Material := { s.layer1Material with map := newMap, needsUpdate := true },
    layer1MaterialBiased := { s.layer1MaterialBiased with map := newMap, needsUpdate := true },
    layer2Material := { s.layer2Material with map := newMap, needsUpdate := true },
    layer2MaterialBiased := { s.layer2MaterialBiased with map := newMap, needsUpdate := true } }

/-- Getter `get modelType()` of `SkinObject`. -/
def SkinObject.getModelType (s : SkinObject) : ModelType :=
  if s.slim then ModelType.slim else ModelType.default

/-- Setter `set modelType(value)` of `SkinObject`: updates `slim` to
`value === "slim"` and invokes every registered listener in registration
order; the second component is the trace of listener invocations. -/
def SkinObject.setModelType (s : SkinObject) (value : ModelType) :
    SkinObject × List Nat :=
  ({ s with slim := match value with | ModelType.slim => true | ModelType.default => false },
   s.modelListeners)

/-- `SkinObject.resetJoints()`: `this.head.rotation.set(0, 0, 0)`. -/
def SkinObject.resetJoints (s : SkinObject) : SkinObject :=
  { s with head := { s.head with rotation := { x := 0, y := 0, z := 0 } } }

/-- The `SkinObject` constructor: builds the four materials, the head
`BodyPart` (visible layers, identity joint transform), no listeners, no
texture, and ends with `this.modelType = "default"` (so `slim = false`). -/
def mkSkinObject : SkinObject :=
  { position := { x := 0, y := 0, z := 0 },
    visible := true,
    head := { position := { x := 0, y := 0, z := 0 },
              rotation := { x := 0, y := 0, z := 0 },
              innerVisible := true, outerVisible := true },
    modelListeners := [],
    slim := false,
    _map := none,
    layer1Material := mkLayer1Material,
    layer1MaterialBiased := biased mkLayer1Material,
    layer2Material := mkLayer2Material,
    layer2MaterialBiased := biased mkLayer2Material }

/-- The observable state of an `EarsObject`. -/
structure EarsObject where
  position : Vec3
  visible : Bool
  rightEarPosition : Vec3
  leftEarPosition : Vec3
  material : MeshStandardMaterial
deriving DecidableEq, Repr

/-- The `EarsObject` constructor: one front-side material, right ear at
`x = -6`, left ear at `x = 6`. -/
def mkEarsObject : EarsObject :=
  { position := { x := 0, y := 0, z := 0 },
    visible := true,
    rightEarPosition := { x := -6, y := 0, z := 0 },
    leftEarPosition := { x := 6, y := 0, z := 0 },
    material := { side := Side.front, transparent := false, alphaTest := 0,
                  polygonOffset := false, polygonOffsetFactor := 0,
                  polygonOffsetUnits := 0, map := none, needsUpdate := false } }

/-- `BackEquipment = "cape" | "elytra"`. -/
inductive BackEquipment where
  | cape
  | elytra
deriving DecidableEq, Repr

/-- The observable state of a `PlayerObject`: root transform, the skin
assembly and the ears accessory. -/
structure PlayerObject where
  position : Vec3
  rotation : Vec3
  visible : Bool
  skin : SkinObject
  ears : EarsObject
deriving DecidableEq, Repr

/-- The `PlayerObject` constructor: skin at `y = 0`, ears at
`y = 8, z = 2/3` and hidden. -/
def mkPlayerObject : PlayerObject :=
  { position := { x := 0, y := 0, z := 0 },
    rotation := { x := 0, y := 0, z := 0 },
    visible := true,
    skin := mkSkinObject,
    ears := { mkEarsObject with
              position := { x := 0, y := 8, z := 2 / 3 },
              visible := false } }

/-- Getter `get backEquipment()` of `PlayerObject`: returns `null`. -/
def PlayerObject.getBackEquipment (_p : PlayerObject) : Option BackEquipment :=
  none

/-- Setter `set backEquipment(_value)` of `PlayerObject`: empty body. -/
def PlayerObject.setBackEquipment (p : PlayerObject)
    (_value : Option BackEquipment) : PlayerObject :=
  p

/-- `PlayerObject.resetJoints()`: delegates to `this.skin.resetJoints()`. -/
def PlayerObject.resetJoints (p : PlayerObject) : PlayerObject :=
  { p with skin := p.skin.resetJoints }

/-! ## UV mapper (`setUVs`) -/

/-- The four corners produced by `toFaceVertices(x1, y1, x2, y2)` inside
`setUVs`: texel coordinates converted to normalized UV, with the vertical
flip `1 - y / textureHeight`. -/
structure FaceVertices where
  v0 : ℚ × ℚ
  v1 : ℚ × ℚ
  v2 : ℚ × ℚ
  v3 : ℚ × ℚ
deriving DecidableEq, Repr

/-- `toFaceVertices` from `setUVs`, parameterised by the atlas size. -/
def toFaceVertices (textureWidth textureHeight x1 y1 x2 y2 : ℚ) : FaceVertices :=
  { v0 := (x1 / textureWidth, 1 - y2 / textureHeight),
    v1 := (x2 / textureWidth, 1 - y2 / textureHeight),
    v2 := (x2 / textureWidth, 1 - y1 / textureHeight),
    v3 := (x1 / textureWidth, 1 - y1 / textureHeight) }

/-- The flat interleaved `newUVData` written into the geometry UV attribute
by `setUVs`: the six faces are computed from the cross-unwrap layout, each
face is reordered by its winding permutation, and the resulting quads are
flattened as `x, y` pairs in face order right, left, top, bottom, front,
back. -/
def setUVsData (u v width height depth textureWidth textureHeight : ℚ) : List ℚ :=
  let top := toFaceVertices textureWidth textureHeight
    (u + depth) v (u + width + depth) (v + depth)
  let bottom := toFaceVertices textureWidth textureHeight
    (u + width + depth) v (u + width * 2 + depth) (v + depth)
  let left := toFaceVertices textureWidth textureHeight
    u (v + depth) (u + depth) (v + depth + height)
  let front := toFaceVertices textureWidth textureHeight
    (u + depth) (v + depth) (u + width + depth) (v + depth + height)
  let right := toFaceVertices textureWidth textureHeight
    (u + width + depth) (v + depth) (u + width + depth * 2) (v + height + depth)
  let back := toFaceVertices textureWidth textureHeight
    (u + width + depth * 2) (v + depth) (u + width * 2 + depth * 2) (v + height + depth)
  let uvRight := [right.v3, right.v2, right.v0, right.v1]
  let uvLeft := [left.v3, left.v2, left.v0, left.v1]
  let uvTop := [top.v3, top.v2, top.v0, top.v1]
  let uvBottom := [bottom.v0, bottom.v1, bottom.v3, bottom.v2]
  let uvFront := [front.v3, front.v2, front.v0, front.v1]
  let uvBack := [back.v3, back.v2, back.v0, back.v1]
  ([uvRight, uvLeft, uvTop, uvBottom, uvFront, uvBack].flatMap
      (fun uvArray => uvArray)).flatMap
    (fun uv => [uv.1, uv.2])

/-- `setSkinUVs`: the skin convenience wrapper fixing the 64×64 atlas. -/
def setSkinUVsData (u v width height depth : ℚ) : List ℚ :=
  setUVsData u v width height depth 64 64

/-! ## Animation framework -/

/-- The state of a `PlayerAnimation`: `speed`, `paused` and the
accumulated `progress`. -/
structure PlayerAnimation where
  speed : ℚ
  paused : Bool
  progress : ℚ
deriving DecidableEq, Repr

/-- The field initialisers of `PlayerAnimation`:
`speed = 1.0`, `paused = false`, `progress = 0`. -/
def PlayerAnimation.init : PlayerAnimation :=
  { speed := 1, paused := false, progress := 0 }

/-- `PlayerAnimation.update(player, deltaTime)`. The subclass pose method
is a parameter `animate` receiving the animation's current (pre-increment)
`progress`, the player and the scaled delta. If paused the call returns
the state and the player unchanged; otherwise `delta = deltaTime * speed`,
`animate` runs on the pre-increment progress, and then
`progress += delta`. -/
def PlayerAnimation.update (animate : ℚ → PlayerObject → ℚ → PlayerObject)
    (st : PlayerAnimation) (player : PlayerObject) (deltaTime : ℚ) :
    PlayerAnimation × PlayerObject :=
  if st.paused then
    (st, player)
  else
    let delta := deltaTime * st.speed
    let player2 := animate st.progress player delta
    ({ st with progress := st.progress + delta }, player2)

/-- `IdleAnimation.animate`: no pose mutation. -/
def IdleAnimation.animate (_progress : ℚ) (player : PlayerObject) (_delta : ℚ) :
    PlayerObject :=
  player

/-- `WalkingAnimation.animate`: head shaking from `t = progress * 8` when
`headBobbing` is enabled, otherwise head yaw and pitch reset to zero.
`sin` abstracts `Math.sin`. -/
def WalkingAnimation.animate (sin : ℚ → ℚ) (headBobbing : Bool)
    (progress : ℚ) (player : PlayerObject) (_delta : ℚ) : PlayerObject :=
  let t := progress * 8
  if headBobbing then
    { player with skin := { player.skin with head := { player.skin.head with
        rotation := { player.skin.head.rotation with
          y := sin (t / 4) * 0.2,
          x := sin (t / 5) * 0.1 } } } }
  else
    { player with skin := { player.skin with head := { player.skin.head with
        rotation := { player.skin.head.rotation with y := 0, x := 0 } } } }

/-- `RunningAnimation.animate`: `t = progress * 15 + pi * 0.5`; bounce
`position.y = cos(t * 2)`, dodge `position.x = cos(t) * 0.15`, tilt
`rotation.z = cos(t + pi) * 0.01`. `cos` abstracts `Math.cos` and `pi`
abstracts `Math.PI`. -/
def RunningAnimation.animate (cos : ℚ → ℚ) (pi : ℚ)
    (progress : ℚ) (player : PlayerObject) (_delta : ℚ) : PlayerObject :=
  let t := progress * 15 + pi * 0.5
  { player with
    position := { player.position with y := cos (t * 2), x := cos t * 0.15 },
    rotation := { player.rotation with z := cos (t + pi) * 0.01 } }

/-- The `clamp` helper: `num <= min ? min : num >= max ? max : num`. -/
def clamp (num lo hi : ℚ) : ℚ :=
  if num ≤ lo then lo else if hi ≤ num then hi else num

/-- The value `t = this.progress > 0 ? this.progress * 20 : 0` computed by
`FlyingAnimation.animate`. -/
def flyingT (progress : ℚ) : ℚ :=
  if 0 < progress then progress * 20 else 0

/-- The value `startProgress = clamp((t * t) / 100, 0, 1)` computed by
`FlyingAnimation.animate`. -/
def flyingStartProgress (progress : ℚ) : ℚ :=
  clamp (flyingT progress * flyingT progress / 100) 0 1

/-- `FlyingAnimation.animate`: body pitch `startProgress * pi / 2`, head
pitch `pi / 4 - player.rotation.x` once `startProgress > 0.5`, else `0`.
`pi` abstracts `Math.PI`. -/
def FlyingAnimation.animate (pi : ℚ)
    (progress : ℚ) (player : PlayerObject) (_delta : ℚ) : PlayerObject :=
  let startProgress := flyingStartProgress progress
  let rotationX := startProgress * pi / 2
  { player with
    rotation := { player.rotation with x := rotationX },
    skin := { player.skin with head := { player.skin.head with
      rotation := { player.skin.head.rotation with
        x := if 0.5 < startProgress then pi / 4 - rotationX else 0 } } } }

/-- Repeated `update` calls over a list of `deltaTime` values, returning
the final animation state and player. -/
def runUpdates (animate : ℚ → PlayerObject → ℚ → PlayerObject)
    (st : PlayerAnimation) (player : PlayerObject) :
    List ℚ → PlayerAnimation × PlayerObject
  | [] => (st, player)
  | d :: ds =>
    let next := PlayerAnimation.update animate st player d
    runUpdates animate next.1 next.2 ds

/-- The trajectory of repeated `update` calls: the animation state and the
player pose observed after each step, in order. -/
def replayStates (animate : ℚ → PlayerObject → ℚ → PlayerObject)
    (st : PlayerAnimation) (player : PlayerObject) :
    List ℚ → List (PlayerAnimation × PlayerObject)
  | [] => []
  | d :: ds =>
    let next := PlayerAnimation.update animate st player d
    next :: replayStates animate next.1 next.2 ds

/-! ## Theorems -/

/-- Helper: the one-step equation of an unpaused `update` call. -/
theorem update_unpaused_eq (animate : ℚ → PlayerObject → ℚ → PlayerObject)
    (st : PlayerAnimation) (player : PlayerObject) (deltaTime : ℚ)
    (h : st.paused = false) :
    PlayerAnimation.update animate st player deltaTime =
      ({ st with progress := st.progress + deltaTime * st.speed },
       animate st.progress player (deltaTime * st.speed)) := by
  simp [PlayerAnimation.update, h]

/-- Helper: over any unpaused replay, the progress value observed after
the `k`-th step is the initial progress plus the sum of the first `k + 1`
deltas scaled by the speed — a function of the accumulated deltas only,
independent of the pose function and of call count. -/
theorem replayStates_progress (animate : ℚ → PlayerObject → ℚ → PlayerObject)
    (deltas : List ℚ) :
    ∀ (st : PlayerAnimation) (player : PlayerObject), st.paused = false →
      (replayStates animate st player deltas).map (fun sp => sp.1.progress) =
        (List.range deltas.length).map
          (fun k => st.progress + (deltas.take (k + 1)).sum * st.speed) := by
  induction deltas with
  | nil =>
    intro st player h
    simp [replayStates]
  | cons d ds ih =>
    intro st player h
    simp only [replayStates, List.length_cons, List.map_cons,
      update_unpaused_eq animate st player d h]
    rw [ih { st with progress := st.progress + d * st.speed }
          (animate st.progress player (d * st.speed)) h,
        List.range_succ_eq_map, List.map_cons, List.map_map]
    congr 1
    · simp
    · apply List.map_congr_left
      intro k _
      simp [List.take_succ_cons, Function.comp]
      ring

/-- C1: for every unpaused `PlayerAnimation`, every player and every
`deltaTime`, `update` computes `delta = deltaTime * speed`, calls the
subclass `animate` with the player and that scaled delta while `progress`
still holds its pre-call value, and only afterwards increments `progress`
by exactly the scaled delta. -/
theorem update_unpaused_order (animate : ℚ → PlayerObject → ℚ → PlayerObject)
    (st : PlayerAnimation) (player : PlayerObject) (deltaTime : ℚ)
    (h : st.paused = false) :
    PlayerAnimation.update animate st player deltaTime =
      ({ st with progress := st.progress + deltaTime * st.speed },
       animate st.progress player (deltaTime * st.speed)) := by
  simp [PlayerAnimation.update, h]

/-- Witness for C1 at a concrete unpaused state. -/
theorem update_unpaused_order_witness :
    PlayerAnimation.init.paused = false ∧
    PlayerAnimation.update IdleAnimation.animate PlayerAnimation.init
        mkPlayerObject 2 =
      ({ PlayerAnimation.init with
          progress := PlayerAnimation.init.progress + 2 * PlayerAnimation.init.speed },
       IdleAnimation.animate PlayerAnimation.init.progress mkPlayerObject
         (2 * PlayerAnimation.init.speed)) :=
  ⟨rfl, update_unpaused_order IdleAnimation.animate PlayerAnimation.init
    mkPlayerObject 2 rfl⟩

/-- C2: while `paused = true`, a single `update` call — and any finite
sequence of `update` calls — returns the animation state and the player
completely unchanged: no progress change and no pose mutation. -/
theorem update_paused_noop (animate : ℚ → PlayerObject → ℚ → PlayerObject)
    (st : PlayerAnimation) (player : PlayerObject)
    (h : st.paused = true) :
    (∀ deltaTime : ℚ,
      PlayerAnimation.update animate st player deltaTime = (st, player)) ∧
    (∀ deltas : List ℚ, runUpdates animate st player deltas = (st, player)) := by
  have hone : ∀ deltaTime : ℚ,
      PlayerAnimation.update animate st player deltaTime = (st, player) := by
    intro deltaTime
    simp [PlayerAnimation.update, h]
  refine ⟨hone, ?_⟩
  intro deltas
  induction deltas with
  | nil => rfl
  | cons d ds ih =>
    simp [runUpdates, hone d, ih]

/-- Witness for C2 at a concrete paused state and delta sequence. -/
theorem update_paused_noop_witness :
    (PlayerAnimation.update IdleAnimation.animate
        { speed := 1, paused := true, progress := 0 } mkPlayerObject 5 =
      ({ speed := 1, paused := true, progress := 0 }, mkPlayerObject)) ∧
    (runUpdates IdleAnimation.animate
        { speed := 1, paused := true, progress := 0 } mkPlayerObject [1, 2, 3] =
      ({ speed := 1, paused := true, progress := 0 }, mkPlayerObject)) :=
  ⟨(update_paused_noop IdleAnimation.animate _ mkPlayerObject rfl).1 5,
   (update_paused_noop IdleAnimation.animate _ mkPlayerObject rfl).2 [1, 2, 3]⟩

/-- C8 counterexample: an unpaused `update` call with `deltaTime = 0`
leaves `progress` unchanged, so progress after the call is not strictly
greater than progress before the call. -/
theorem progress_strict_increase_cex :
    PlayerAnimation.init.paused = false ∧
    ¬ (PlayerAnimation.init.progress <
        (PlayerAnimation.update IdleAnimation.animate PlayerAnimation.init
          mkPlayerObject 0).1.progress) := by
  refine ⟨rfl, ?_⟩
  simp [PlayerAnimation.update, PlayerAnimation.init, IdleAnimation.animate]

/-- C8 amended: `progress` starts at 0; every unpaused `update` call adds
exactly `deltaTime * speed` to it, so it is nondecreasing whenever
`0 ≤ deltaTime * speed` and strictly increasing whenever
`0 < deltaTime * speed`. -/
theorem progress_accumulation (animate : ℚ → PlayerObject → ℚ → PlayerObject)
    (st : PlayerAnimation) (player : PlayerObject) (deltaTime : ℚ)
    (h : st.paused = false) :
    PlayerAnimation.init.progress = 0 ∧
    (PlayerAnimation.update animate st player deltaTime).1.progress =
      st.progress + deltaTime * st.speed ∧
    (0 ≤ deltaTime * st.speed →
      st.progress ≤
        (PlayerAnimation.update animate st player deltaTime).1.progress) ∧
    (0 < deltaTime * st.speed →
      st.progress <
        (PlayerAnimation.update animate st player deltaTime).1.progress) := by
  have hupd : (PlayerAnimation.update animate st player deltaTime).1.progress =
      st.progress + deltaTime * st.speed := by
    simp [PlayerAnimation.update, h]
  refine ⟨rfl, hupd, ?_, ?_⟩ <;> intro hpos <;> rw [hupd] <;> linarith

/-- Witness for C8's amended theorem at a concrete unpaused state and a
positive delta. -/
theorem progress_accumulation_witness :
    PlayerAnimation.init.progress = 0 ∧
    (PlayerAnimation.update IdleAnimation.animate PlayerAnimation.init
        mkPlayerObject 1).1.progress =
      PlayerAnimation.init.progress + 1 * PlayerAnimation.init.speed ∧
    PlayerAnimation.init.progress <
      (PlayerAnimation.update IdleAnimation.animate PlayerAnimation.init
        mkPlayerObject 1).1.progress :=
  ⟨(progress_accumulation IdleAnimation.animate PlayerAnimation.init
      mkPlayerObject 1 rfl).1,
   (progress_accumulation IdleAnimation.animate PlayerAnimation.init
      mkPlayerObject 1 rfl).2.1,
   (progress_accumulation IdleAnimation.animate PlayerAnimation.init
      mkPlayerObject 1 rfl).2.2.2 (by simp [PlayerAnimation.init])⟩

/-- C9 counterexample: after assigning `backEquipment = "cape"`, reading
`backEquipment` returns `null`, not `"cape"`. -/
theorem backEquipment_roundtrip_cex :
    ¬ ((mkPlayerObject.setBackEquipment
          (some BackEquipment.cape)).getBackEquipment =
        some BackEquipment.cape) := by
  simp [PlayerObject.setBackEquipment, PlayerObject.getBackEquipment]

/-- C9 amended: the `backEquipment` setter is a no-op and the getter
constantly returns `null`; consequently reading after assigning `x`
returns `x` exactly when `x` is `null`. -/
theorem backEquipment_stub (p : PlayerObject) (x : Option BackEquipment) :
    p.setBackEquipment x = p ∧
    (p.setBackEquipment x).getBackEquipment = none ∧
    ((p.setBackEquipment x).getBackEquipment = x ↔ x = none) := by
  refine ⟨rfl, rfl, ?_⟩
  cases x <;> simp [PlayerObject.setBackEquipment, PlayerObject.getBackEquipment]

/-- C10: `resetJoints` zeroes the head joint rotation and changes nothing
else: the player root transform and visibility, the skin position and
visibility, the head position and layer visibilities, the texture map, all
four materials, the slim flag, the listeners and the whole ears accessory
are left untouched — in particular the root displacement and tilt written
by the running and flying animations are not reset. -/
theorem resetJoints_frame (p : PlayerObject) :
    p.resetJoints.skin.head.rotation = { x := 0, y := 0, z := 0 } ∧
    p.resetJoints.position = p.position ∧
    p.resetJoints.rotation = p.rotation ∧
    p.resetJoints.visible = p.visible ∧
    p.resetJoints.skin.position = p.skin.position ∧
    p.resetJoints.skin.visible = p.skin.visible ∧
    p.resetJoints.skin.head.position = p.skin.head.position ∧
    p.resetJoints.skin.head.innerVisible = p.skin.head.innerVisible ∧
    p.resetJoints.skin.head.outerVisible = p.skin.head.outerVisible ∧
    p.resetJoints.skin._map = p.skin._map ∧
    p.resetJoints.skin.layer1Material = p.skin.layer1Material ∧
    p.resetJoints.skin.layer1MaterialBiased = p.skin.layer1MaterialBiased ∧
    p.resetJoints.skin.layer2Material = p.skin.layer2Material ∧
    p.resetJoints.skin.layer2MaterialBiased = p.skin.layer2MaterialBiased ∧
    p.resetJoints.skin.slim = p.skin.slim ∧
    p.resetJoints.skin.modelListeners = p.skin.modelListeners ∧
    p.resetJoints.ears = p.ears :=
  ⟨rfl, rfl, rfl, rfl, rfl, rfl, rfl, rfl, rfl, rfl, rfl, rfl, rfl, rfl,
   rfl, rfl, rfl⟩

/-- C3: for each concrete animation (Idle, Walking, Running, Flying),
replaying a fixed delta sequence from a fixed unpaused initial state is
deterministic — two independent replays produce identical state and pose
trajectories — and after every step the accumulated progress equals the
initial progress plus the speed-scaled sum of the deltas consumed so far,
a pure function of the delta sequence (not of wall-clock time or call
count). -/
theorem animation_determinism (sin cos : ℚ → ℚ) (pi : ℚ) (headBobbing : Bool)
    (st : PlayerAnimation) (player : PlayerObject) (deltas : List ℚ)
    (h : st.paused = false) :
    (replayStates IdleAnimation.animate st player deltas =
      replayStates IdleAnimation.animate st player deltas) ∧
    (replayStates (WalkingAnimation.animate sin headBobbing) st player deltas =
      replayStates (WalkingAnimation.animate sin headBobbing) st player deltas) ∧
    (replayStates (RunningAnimation.animate cos pi) st player deltas =
      replayStates (RunningAnimation.animate cos pi) st player deltas) ∧
    (replayStates (FlyingAnimation.animate pi) st player deltas =
      replayStates (FlyingAnimation.animate pi) st player deltas) ∧
    ((replayStates IdleAnimation.animate st player deltas).map
        (fun sp => sp.1.progress) =
      (List.range deltas.length).map
        (fun k => st.progress + (deltas.take (k + 1)).sum * st.speed)) ∧
    ((replayStates (WalkingAnimation.animate sin headBobbing) st player
        deltas).map (fun sp => sp.1.progress) =
      (List.range deltas.length).map
        (fun k => st.progress + (deltas.take (k + 1)).sum * st.speed)) ∧
    ((replayStates (RunningAnimation.animate cos pi) st player deltas).map
        (fun sp => sp.1.progress) =
      (List.range deltas.length).map
        (fun k => st.progress + (deltas.take (k + 1)).sum * st.speed)) ∧
    ((replayStates (FlyingAnimation.animate pi) st player deltas).map
        (fun sp => sp.1.progress) =
      (List.range deltas.length).map
        (fun k => st.progress + (deltas.take (k + 1)).sum * st.speed)) :=
  ⟨rfl, rfl, rfl, rfl,
   replayStates_progress IdleAnimation.animate deltas st player h,
   replayStates_progress (WalkingAnimation.animate sin headBobbing) deltas
     st player h,
   replayStates_progress (RunningAnimation.animate cos pi) deltas st player h,
   replayStates_progress (FlyingAnimation.animate pi) deltas st player h⟩

/-- Witness for C3 at the initial animation state, the constructed player
and the delta sequence `[1]`. -/
theorem animation_determinism_witness :
    PlayerAnimation.init.paused = false ∧
    (replayStates IdleAnimation.animate PlayerAnimation.init mkPlayerObject
        [1] =
      replayStates IdleAnimation.animate PlayerAnimation.init mkPlayerObject
        [1]) ∧
    (replayStates (FlyingAnimation.animate 3) PlayerAnimation.init
        mkPlayerObject [1]).map (fun sp => sp.1.progress) =
      (List.range ([1] : List ℚ).length).map
        (fun k => PlayerAnimation.init.progress +
          (([1] : List ℚ).take (k + 1)).sum * PlayerAnimation.init.speed) :=
  ⟨rfl,
   (animation_determinism id id 3 true PlayerAnimation.init mkPlayerObject
      [1] rfl).1,
   (animation_determinism id id 3 true PlayerAnimation.init mkPlayerObject
      [1] rfl).2.2.2.2.2.2.2⟩

set_option maxHeartbeats 2000000 in
/-- C4: for every box with positive width, height and depth and every
atlas offset `(u, v)` whose unwrap region fits the atlas, every one of the
24 texture coordinates emitted by `setUVs` (both `x` and `y` components)
lies in `[0, 1]`, and the `y` components are computed by the vertical flip
`1 - y / textureHeight`. -/
theorem setUVs_bounds (u v width height depth textureWidth textureHeight : ℚ)
    (hw : 0 < width) (hh : 0 < height) (hd : 0 < depth)
    (hu : 0 ≤ u) (hv : 0 ≤ v)
    (hfitw : u + 2 * width + 2 * depth ≤ textureWidth)
    (hfith : v + depth + height ≤ textureHeight) :
    (∀ q ∈ setUVsData u v width height depth textureWidth textureHeight,
      0 ≤ q ∧ q ≤ 1) ∧
    (∀ x1 y1 x2 y2 : ℚ,
      (toFaceVertices textureWidth textureHeight x1 y1 x2 y2).v0.2 =
        1 - y2 / textureHeight ∧
      (toFaceVertices textureWidth textureHeight x1 y1 x2 y2).v1.2 =
        1 - y2 / textureHeight ∧
      (toFaceVertices textureWidth textureHeight x1 y1 x2 y2).v2.2 =
        1 - y1 / textureHeight ∧
      (toFaceVertices textureWidth textureHeight x1 y1 x2 y2).v3.2 =
        1 - y1 / textureHeight) := by
  refine ⟨?_, fun x1 y1 x2 y2 => ⟨rfl, rfl, rfl, rfl⟩⟩
  intro q hq
  have htw : 0 < textureWidth := by linarith
  have hth : 0 < textureHeight := by linarith
  have hx : ∀ a : ℚ, 0 ≤ a → a ≤ textureWidth →
      0 ≤ a / textureWidth ∧ a / textureWidth ≤ 1 := fun a h0 h1 =>
    ⟨div_nonneg h0 htw.le, (div_le_one htw).mpr h1⟩
  have hy : ∀ b : ℚ, 0 ≤ b → b ≤ textureHeight →
      0 ≤ 1 - b / textureHeight ∧ 1 - b / textureHeight ≤ 1 := by
    intro b h0 h1
    have k0 : 0 ≤ b / textureHeight := div_nonneg h0 hth.le
    have k1 : b / textureHeight ≤ 1 := (div_le_one hth).mpr h1
    constructor <;> linarith
  simp [setUVsData, toFaceVertices] at hq
  rcases hq with rfl|rfl|rfl|rfl|rfl|rfl|rfl|rfl|rfl|rfl|rfl|rfl|rfl|rfl|
    rfl|rfl|rfl|rfl|rfl|rfl|rfl|rfl|rfl|rfl|rfl|rfl|rfl|rfl|rfl|rfl|rfl|
    rfl|rfl|rfl|rfl|rfl|rfl|rfl|rfl|rfl|rfl|rfl|rfl|rfl|rfl|rfl|rfl|rfl
  all_goals first
    | exact hx _ (by linarith) (by linarith)
    | exact hy _ (by linarith) (by linarith)

/-- Witness for C4 at the head box region `setSkinUVs(headBox, 0, 0, 8, 8, 8)`
of the 64×64 skin atlas: the coordinate `0 / 64` emitted for the left face
is in `[0, 1]`. -/
theorem setUVs_bounds_witness :
    (0 ≤ (0 : ℚ) ∧ (0 : ℚ) ≤ 1) ∧
    (toFaceVertices 64 64 0 8 8 16).v0.2 = 1 - 16 / 64 :=
  ⟨(setUVs_bounds 0 0 8 8 8 64 64 (by norm_num) (by norm_num) (by norm_num)
      (by norm_num) (by norm_num) (by norm_num) (by norm_num)).1 0
    (by simp [setUVsData, toFaceVertices]),
   ((setUVs_bounds 0 0 8 8 8 64 64 (by norm_num) (by norm_num) (by norm_num)
      (by norm_num) (by norm_num) (by norm_num) (by norm_num)).2 0 8 8 16).1⟩

/-- C5: assigning `map = X` on a `SkinObject` propagates `X` to all four
owned materials and marks each `needsUpdate`; reading `map` afterwards
returns `X`; a freshly constructed `SkinObject` reads `map` as `null`. -/
theorem map_setter_propagates (s : SkinObject) (X : Option Texture) :
    (s.setMap X).getMap = X ∧
    (s.setMap X).layer1Material.map = X ∧
    (s.setMap X).layer1Material.needsUpdate = true ∧
    (s.setMap X).layer1MaterialBiased.map = X ∧
    (s.setMap X).layer1MaterialBiased.needsUpdate = true ∧
    (s.setMap X).layer2Material.map = X ∧
    (s.setMap X).layer2Material.needsUpdate = true ∧
    (s.setMap X).layer2MaterialBiased.map = X ∧
    (s.setMap X).layer2MaterialBiased.needsUpdate = true ∧
    mkSkinObject.getMap = none :=
  ⟨rfl, rfl, rfl, rfl, rfl, rfl, rfl, rfl, rfl, rfl⟩

/-- C6: assigning `modelType` sets the `slim` flag to true exactly when
the value is `"slim"`, and synchronously invokes each registered listener
exactly once in registration order (the emitted invocation trace is the
registered listener list itself). -/
theorem modelType_setter (s : SkinObject) (value : ModelType) :
    ((s.setModelType value).1.slim = true ↔ value = ModelType.slim) ∧
    (s.setModelType value).2 = s.modelListeners := by
  refine ⟨?_, rfl⟩
  cases value <;> simp [SkinObject.setModelType]

/-- C7: for every `pi`, every progress value (negative ones give `t = 0`)
and every player, `FlyingAnimation.animate` computes
`t = progress > 0 ? progress * 20 : 0` and
`startProgress = clamp(t * t / 100, 0, 1)`, which always lies in `[0, 1]`;
it sets the body pitch to `startProgress * pi / 2` and the head pitch to
`pi / 4` minus the body pitch when `startProgress > 0.5`, else to `0`. -/
theorem flying_animate_spec (pi progress : ℚ) (player : PlayerObject)
    (delta : ℚ) :
    flyingT progress = (if 0 < progress then progress * 20 else 0) ∧
    (progress ≤ 0 → flyingT progress = 0) ∧
    flyingStartProgress progress =
      clamp (flyingT progress * flyingT progress / 100) 0 1 ∧
    (0 ≤ flyingStartProgress progress ∧ flyingStartProgress progress ≤ 1) ∧
    (FlyingAnimation.animate pi progress player delta).rotation.x =
      flyingStartProgress progress * pi / 2 ∧
    (FlyingAnimation.animate pi progress player delta).skin.head.rotation.x =
      (if 0.5 < flyingStartProgress progress then
        pi / 4 - flyingStartProgress progress * pi / 2
      else 0) := by
  have ht0 : progress ≤ 0 → flyingT progress = 0 := by
    intro hp
    simp only [flyingT, if_neg (not_lt.mpr hp)]
  have hmem : 0 ≤ flyingStartProgress progress ∧ flyingStartProgress progress ≤ 1 := by
    unfold flyingStartProgress clamp
    split_ifs with h1 h2
    · exact ⟨le_refl 0, zero_le_one⟩
    · exact ⟨zero_le_one, le_refl 1⟩
    · exact ⟨le_of_not_le h1, le_of_not_le h2⟩
  exact ⟨rfl, ht0, rfl, hmem, rfl, rfl⟩

/-- Witness for C7 at `pi = 3`, a negative progress and the constructed
player. -/
theorem flying_animate_spec_witness :
    flyingT (-1) = (if (0 : ℚ) < -1 then (-1) * 20 else 0) ∧
    ((-1 : ℚ) ≤ 0 → flyingT (-1) = 0) ∧
    flyingStartProgress (-1) = clamp (flyingT (-1) * flyingT (-1) / 100) 0 1 ∧
    (0 ≤ flyingStartProgress (-1) ∧ flyingStartProgress (-1) ≤ 1) ∧
    (FlyingAnimation.animate 3 (-1) mkPlayerObject 0).rotation.x =
      flyingStartProgress (-1) * 3 / 2 ∧
    (FlyingAnimation.animate 3 (-1) mkPlayerObject 0).skin.head.rotation.x =
      (if 0.5 < flyingStartProgress (-1) then
        3 / 4 - flyingStartProgress (-1) * 3 / 2
      else 0) :=
  flying_animate_spec 3 (-1) mkPlayerObject 0
